import Mathlib

/-!
Shallow embedding of `src/bin/cargo-hfuzz.rs` from honggfuzz-rs: a build/run
orchestrator for fuzz targets.  Pure data construction (the rustflags
assembly) is embedded as Lean functions on `String`; the process-level
behavior (spawning the build tool, the debugger, replacing the process image
with the fuzzing engine) is embedded as pure functions from an explicit
"world" (the observable behavior of the child processes and the host
environment) to a trace of launched commands together with a final outcome.
-/

set_option maxRecDepth 40000

/-- Environment-variable store: `env::var(k)` succeeds with `some v` or fails
with `none` (unset / not unicode). -/
abbrev Env := String → Option String

/-- The three build modes of `cargo-hfuzz` (enum `BuildType`,
`src/bin/cargo-hfuzz.rs:14-19`). -/
inductive BuildType where
  | ReleaseInstrumented
  | ReleaseNotInstrumented
  | Debug
deriving DecidableEq

/-- Predicate: `pat` occurs as a contiguous substring of `s` (Rust `str::contains`). -/
def containsStr (s pat : String) : Prop := pat.data <:+: s.data

instance (s pat : String) : Decidable (containsStr s pat) :=
  inferInstanceAs (Decidable (pat.data <:+: s.data))

/-- Bool version of `containsStr`, used where the Rust code branches on
`str::contains`. -/
def containsSub (s pat : String) : Bool := decide (containsStr s pat)

/-- The empty environment: every variable is unset. -/
def emptyEnv : Env := fun _ => none

/-- The RUSTFLAGS string assembled by `hfuzz_build`
(`src/bin/cargo-hfuzz.rs:133-174`).  Mirrors the sequence of `push_str`
calls: a base common to all modes, then mode-specific additions (`isMacOS`
models the compile-time `cfg!(target_os = "macos")` of the orchestrator),
and finally the user-supplied `RUSTFLAGS` environment value (empty string
when the variable is unset, per `unwrap_or_default`). -/
def hfuzz_build_rustflags (env : Env) (build_type : BuildType) (isMacOS : Bool) : String :=
  let rustflags := "--cfg fuzzing -C debug-assertions -C overflow_checks "
  let rustflags :=
    match build_type with
    | .Debug =>
        rustflags ++ "--cfg fuzzing_debug -C panic=unwind -C opt-level=0 -C debuginfo=2 "
    | _ =>
        let rustflags := rustflags ++ "-C panic=abort -C opt-level=3 -C debuginfo=0 "
        if build_type = .ReleaseInstrumented then
          let rustflags := rustflags ++
            "-C passes=sancov -C llvm-args=-sanitizer-coverage-level=4 -C llvm-args=-sanitizer-coverage-trace-pc-guard -C llvm-args=-sanitizer-coverage-prune-blocks=0 "
          -- trace-compares does not work on macOS without a sanitizer
          if !isMacOS then
            rustflags ++ "-C llvm-args=-sanitizer-coverage-trace-compares "
          else rustflags
        else rustflags
  rustflags ++ ((env "RUSTFLAGS").getD "")

/-- Test that `as` is a prefix of `bs` (Rust `str::starts_with`, on characters). -/
def isPrefixList : List Char → List Char → Bool
  | [], _ => true
  | _ :: _, [] => false
  | a :: as, b :: bs => a = b && isPrefixList as bs

/-- Rust `str::starts_with`. -/
def startsWithStr (s pre : String) : Bool := isPrefixList pre.data s.data

/-- Rust `str::get(n..)` (here only applied where the first `n` characters
are ASCII, so byte indices and character indices agree). -/
def dropStr (s : String) (n : Nat) : String := ⟨s.data.drop n⟩

/-- Result of resolving the host target triple: either the triple, or a Rust
panic (`unwrap` on `None`/`Err`), which aborts the process. -/
inductive TripleResult where
  | ok (triple : String)
  | panicked
deriving DecidableEq

/-- The exit code of a Rust process whose main thread panicked. -/
def panicExitCode : Nat := 101

/-- Embedding of `target_triple` (`src/bin/cargo-hfuzz.rs:21-26`): run `rustc -v -V`,
take the first stdout line starting with `"host: "`, return the rest of
that line.  `rustcStdout` models the observable stdout of `rustc -v -V`,
presented as its list of lines (Rust `String::lines`); `none` models a
failed invocation or non-UTF-8 output, on which `.unwrap()` panics, as it
does when no line carries the `host: ` marker. -/
def target_triple (rustcStdout : Option (List String)) : TripleResult :=
  match rustcStdout with
  | none => .panicked
  | some ls =>
    match ls.filter (fun l => startsWithStr l "host: ") with
    | [] => .panicked
    | l :: _ => .ok (dropStr l 6)

/-- A child-process invocation: program, argument list (in order), and the
environment overrides set with `.env` (in order). -/
structure Cmd where
  program : String
  args : List String
  envs : List (String × String)
deriving DecidableEq

/-- Observable process-level actions of one orchestrator invocation, in
program order. -/
inductive Act where
  /-- Run `Command::status()` on the build tool (`cargo build` / `cargo clean`). -/
  | runBuildTool (c : Cmd)
  /-- Run `Command::status()` on the debugger child. -/
  | runDebugger (c : Cmd)
  /-- Attempt `CommandExt::exec` of the fuzzing engine (process-image replacement). -/
  | execFuzzer (c : Cmd)
  /-- Attempt `fs::create_dir_all` of the seed-input directory (best effort). -/
  | mkdirInput (path : String)
  /-- Print the version string. -/
  | printVersion
deriving DecidableEq

/-- Final outcome of one orchestrator invocation. -/
inductive Outcome where
  /-- Control returns to the caller (`main` then exits 0 implicitly). -/
  | returned
  /-- Termination through `process::exit(code)`. -/
  | exited (code : Nat)
  /-- A Rust panic; the runtime aborts the process with `panicExitCode`. -/
  | panicked
  /-- The process image was successfully replaced by `c` (exec). -/
  | execed (c : Cmd)
deriving DecidableEq

/-- The exit code observed by the parent shell, when one exists (`none` for
a successful exec, whose exit code is the fuzzing engine's own, and for a
plain return, where `main` exits 0 implicitly). -/
def Outcome.exitCode : Outcome → Option Nat
  | .returned => none
  | .exited c => some c
  | .panicked => some panicExitCode
  | .execed _ => none

/-- Observable behavior of the host: what the children do when launched.
`cargoStatus`/`debuggerStatus` model `Command::status()`: `none` is a spawn
error (on which `.unwrap()` panics), `some none` a child killed by a signal
(`ExitStatus::code() = None`), `some (some c)` a child exiting with code
`c`.  `execFails` tells whether the `exec` of the fuzzing engine returns
with an error instead of replacing the process image. -/
structure World where
  rustcStdout : Option (List String)
  isMacOS : Bool
  cargoStatus : Option (Option Nat)
  debuggerStatus : Option (Option Nat)
  execFails : Bool

/-- Splitting accumulator for `splitWhitespace`; `cur` holds the current
word reversed. -/
def splitWsAux : List Char → List Char → List String
  | [], cur => if cur = [] then [] else [(⟨cur.reverse⟩ : String)]
  | c :: rest, cur =>
    if c.isWhitespace then
      (if cur = [] then [] else [(⟨cur.reverse⟩ : String)]) ++ splitWsAux rest []
    else splitWsAux rest (c :: cur)

/-- Rust `str::split_whitespace`: whitespace-separated words, empty pieces
dropped.  (Rust uses the Unicode White_Space property; `Char.isWhitespace`
covers the ASCII subset, which is all the orchestrator's own literals use.) -/
def splitWhitespace (s : String) : List String := splitWsAux s.data []

/-- Split a character list on a separator character, keeping empty pieces
(Rust `str::split('/')`). -/
def splitOnChar (sep : Char) : List Char → List (List Char)
  | [] => [[]]
  | c :: rest =>
    let r := splitOnChar sep rest
    if c = sep then [] :: r
    else
      match r with
      | [] => [[c]]
      | h :: t => (c :: h) :: t

/-- Rust `Path::file_name`: the last non-empty path component, after
dropping `.` components; `none` when there is none or the path ends in
`..`. -/
def fileName (p : String) : Option String :=
  let comps := ((splitOnChar '/' p.data).map (fun l => (⟨l⟩ : String))).filter
    (fun c => c ≠ "" && c ≠ ".")
  match comps.getLast? with
  | some s => if s = ".." then none else some s
  | none => none

/-- Modelled from the spec: the orchestrator's own version string
(`env!("CARGO_PKG_VERSION")`).  The crate manifest is not among the given
sources; no claim depends on the concrete value. -/
def VERSION : String := "0.5"

/-- Embedding of `debugger_command` (`src/bin/cargo-hfuzz.rs:49-65`): build the debugger
invocation for `target`.  The debugger binary comes from `HFUZZ_DEBUGGER`
(default `rust-lldb`); if its file name contains `lldb` the LLDB argument
dialect (`-o` scripted commands, `-f`, `--`) is used, otherwise the GDB
dialect (`-ex`, `--args`).  `triple` is the already-resolved host target
triple (the source calls `target_triple()` here a second time). -/
def debugger_command (env : Env) (target triple : String) : Cmd :=
  let debugger := (env "HFUZZ_DEBUGGER").getD "rust-lldb"
  let honggfuzz_target := (env "CARGO_TARGET_DIR").getD "hfuzz_target"
  let artifact := honggfuzz_target ++ "/" ++ triple ++ "/debug/" ++ target
  match (fileName debugger).map (fun f => containsSub f "lldb") with
  | some true =>
      { program := debugger,
        args := ["-o", "b rust_panic", "-o", "r", "-o", "bt", "-f", artifact, "--"],
        envs := [] }
  | _ =>
      { program := debugger,
        args := ["-ex", "b rust_panic", "-ex", "r", "-ex", "bt", "--args", artifact],
        envs := [] }

/-- Embedding of `hfuzz_build` (`src/bin/cargo-hfuzz.rs:130-199`): assemble the
RUSTFLAGS, build the `cargo build` command (target pinned to the host
triple, pass-through `args`, whitespace-split `HFUZZ_BUILD_ARGS`, redirected
`CARGO_TARGET_DIR`, `--release` plus version-marker variables outside Debug
mode), run it, and propagate a failure exit code; on success control
returns.  `env::var("CARGO").unwrap()` and `status().unwrap()` panic on
failure, as does `target_triple` when the triple cannot be resolved. -/
def hfuzz_build (env : Env) (w : World) (args : List String) (build_type : BuildType) :
    List Act × Outcome :=
  let honggfuzz_target := (env "CARGO_TARGET_DIR").getD "hfuzz_target"
  let rustflags := hfuzz_build_rustflags env build_type w.isMacOS
  let hfuzz_build_args := splitWhitespace ((env "HFUZZ_BUILD_ARGS").getD "")
  match env "CARGO" with
  | none => ([], .panicked)
  | some cargo_bin =>
    match target_triple w.rustcStdout with
    | .panicked => ([], .panicked)
    | .ok triple =>
      let command : Cmd :=
        { program := cargo_bin,
          args := ["build", "--target", triple] ++ args ++ hfuzz_build_args ++
            (if build_type ≠ BuildType.Debug then ["--release"] else []),
          envs := [("RUSTFLAGS", rustflags), ("CARGO_TARGET_DIR", honggfuzz_target)] ++
            (if build_type ≠ BuildType.Debug then
              [("CARGO_HONGGFUZZ_BUILD_VERSION", VERSION),
               ("CARGO_HONGGFUZZ_TARGET_DIR", honggfuzz_target)]
             else []) }
      match w.cargoStatus with
      | none => ([.runBuildTool command], .panicked)
      | some st =>
        if st = some 0 then ([.runBuildTool command], .returned)
        else ([.runBuildTool command], .exited (st.getD 1))

/-- Embedding of `hfuzz_run` (`src/bin/cargo-hfuzz.rs:67-128`): take the target name
(usage error, exit 1, when absent), build it via `hfuzz_build`, then either
launch the debugger as a child (Debug mode; requires a crash-filename
argument, passed to the debugged program only through the
`CARGO_HONGGFUZZ_CRASH_FILENAME` environment variable) or replace the
process image with the fuzzing engine (other modes). -/
def hfuzz_run (env : Env) (w : World) (args : List String) (build_type : BuildType) :
    List Act × Outcome :=
  match args with
  | [] => ([], .exited 1)
  | target :: args =>
    let honggfuzz_target := (env "CARGO_TARGET_DIR").getD "hfuzz_target"
    let honggfuzz_workspace := (env "HFUZZ_WORKSPACE").getD "hfuzz_workspace"
    let honggfuzz_input := (env "HFUZZ_INPUT").getD
      (honggfuzz_workspace ++ "/" ++ target ++ "/input")
    match hfuzz_build env w ["--bin", target] build_type with
    | (tr, .returned) =>
      match target_triple w.rustcStdout with
      | .panicked => (tr, .panicked)  -- unreachable: the build already resolved the triple
      | .ok triple =>
        match build_type with
        | .Debug =>
          match args with
          | [] => (tr, .exited 1)
          | crash_filename :: args =>
            let base := debugger_command env target triple
            let command : Cmd :=
              { program := base.program,
                args := base.args ++ args,
                envs := base.envs ++
                  [("CARGO_HONGGFUZZ_CRASH_FILENAME", crash_filename),
                   ("RUST_BACKTRACE", (env "RUST_BACKTRACE").getD "1")] }
            match w.debuggerStatus with
            | none => (tr ++ [.runDebugger command], .panicked)
            | some st =>
              if st = some 0 then (tr ++ [.runDebugger command], .returned)
              else (tr ++ [.runDebugger command], .exited (st.getD 1))
        | _ =>
          let asan_options := "detect_odr_violation=0:" ++ ((env "ASAN_OPTIONS").getD "")
          let tsan_options := "report_signal_unsafe=0:" ++ ((env "TSAN_OPTIONS").getD "")
          let hfuzz_run_args := splitWhitespace ((env "HFUZZ_RUN_ARGS").getD "")
          let inputDir := honggfuzz_workspace ++ "/" ++ target ++ "/input"
          let command : Cmd :=
            { program := honggfuzz_target ++ "/honggfuzz",
              args := ["-W", honggfuzz_workspace ++ "/" ++ target, "-f", honggfuzz_input, "-P"] ++
                hfuzz_run_args ++
                ["--", honggfuzz_target ++ "/" ++ triple ++ "/release/" ++ target] ++
                args,
              envs := [("ASAN_OPTIONS", asan_options), ("TSAN_OPTIONS", tsan_options)] }
          if w.execFails then
            (tr ++ [.mkdirInput inputDir, .execFuzzer command], .exited 1)
          else
            (tr ++ [.mkdirInput inputDir, .execFuzzer command], .execed command)
    | (tr, o) => (tr, o)

/-- Embedding of `hfuzz_clean` (`src/bin/cargo-hfuzz.rs:201-213`): forward to
`cargo clean` with the redirected `CARGO_TARGET_DIR`, propagating a failure
exit code. -/
def hfuzz_clean (env : Env) (w : World) (args : List String) : List Act × Outcome :=
  let honggfuzz_target := (env "CARGO_TARGET_DIR").getD "hfuzz_target"
  match env "CARGO" with
  | none => ([], .panicked)
  | some cargo_bin =>
    let command : Cmd :=
      { program := cargo_bin,
        args := ["clean"] ++ args,
        envs := [("CARGO_TARGET_DIR", honggfuzz_target)] }
    match w.cargoStatus with
    | none => ([.runBuildTool command], .panicked)
    | some st =>
      if st = some 0 then ([.runBuildTool command], .returned)
      else ([.runBuildTool command], .exited (st.getD 1))

/-- Embedding of `cd_to_crate_root` (`src/bin/cargo-hfuzz.rs:32-47`): starting from the
current directory, walk to the parent until a directory containing
`Cargo.toml` is found and return it (`some root`; the source then makes it
the process working directory); when the filesystem root is passed without
finding one, print an error and exit 1 (`none`).  A directory is modelled
as its component list from the filesystem root (the root is `[]`, the
parent is `List.dropLast`); `hasManifest p` models
`p.join("Cargo.toml").is_file()`. -/
def cd_to_crate_root (hasManifest : List String → Bool) : List String → Option (List String)
  | [] => if hasManifest [] then some [] else none
  | x :: xs =>
    if hasManifest (x :: xs) then some (x :: xs)
    else cd_to_crate_root hasManifest (x :: xs).dropLast
termination_by p => p.length
decreasing_by simp [List.length_dropLast]

/-- The chain of directories visited by the walk of `cd_to_crate_root`
starting at `p`: `p`, its parent, ..., the filesystem root `[]`. -/
def ancestors : List String → List (List String)
  | [] => [[]]
  | x :: xs => (x :: xs) :: ancestors (x :: xs).dropLast
termination_by p => p.length
decreasing_by simp [List.length_dropLast]

/-- Embedding of `main` (`src/bin/cargo-hfuzz.rs:215-255`): require the first CLI token
(after the program name, i.e. `env::args().skip(1)`) to be `hfuzz`, change
to the crate root, then dispatch the verb; an absent or unrecognized verb
is a usage error (exit 1).  `argv` models the token list after the program
name, `cwd` the starting working directory and `hm` the manifest
predicate for `cd_to_crate_root`. -/
def mainModel (env : Env) (w : World) (hm : List String → Bool) (cwd : List String)
    (argv : List String) : List Act × Outcome :=
  match argv with
  | [] => ([], .exited 1)
  | first :: args =>
    if first ≠ "hfuzz" then ([], .exited 1)
    else
      -- change to crate root to have the same behavior as cargo build/run
      match cd_to_crate_root hm cwd with
      | none => ([], .exited 1)
      | some _root =>
        match args with
        | verb :: rest =>
          if verb = "build" then hfuzz_build env w rest .ReleaseInstrumented
          else if verb = "build-no-inst" then hfuzz_build env w rest .ReleaseNotInstrumented
          else if verb = "build-debug" then hfuzz_build env w rest .Debug
          else if verb = "run" then hfuzz_run env w rest .ReleaseInstrumented
          else if verb = "run-no-inst" then hfuzz_run env w rest .ReleaseNotInstrumented
          else if verb = "run-debug" then hfuzz_run env w rest .Debug
          else if verb = "clean" then hfuzz_clean env w rest
          else if verb = "version" then ([.printVersion], .returned)
          else ([], .exited 1)
        | [] => ([], .exited 1)

theorem hfuzz_build_rustflags_decomp (env : Env) (bt : BuildType) (m : Bool) :
    hfuzz_build_rustflags env bt m =
      hfuzz_build_rustflags emptyEnv bt m ++ ((env "RUSTFLAGS").getD "") := by
  cases bt <;> cases m <;>
    simp [hfuzz_build_rustflags, emptyEnv]

theorem containsStr_append_right (s t pat : String) (h : containsStr s pat) :
    containsStr (s ++ t) pat := by
  obtain ⟨a, b, hab⟩ := h
  exact ⟨a, b ++ t.data, by rw [String.data_append, ← hab]; simp⟩

/-- C2: For every BuildMode (ReleaseInstrumented, ReleaseNotInstrumented,
Debug), the assembled compiler-flags string contains the fuzzing-context
flag (`--cfg fuzzing`), the debug-assertions flag (`-C debug-assertions`),
and the overflow-checks flag (`-C overflow_checks`) — for every value of the
user `RUSTFLAGS` variable and on every platform. -/
theorem rustflags_always_contain_base_flags (env : Env) (bt : BuildType) (m : Bool) :
    containsStr (hfuzz_build_rustflags env bt m) "--cfg fuzzing" ∧
    containsStr (hfuzz_build_rustflags env bt m) "-C debug-assertions" ∧
    containsStr (hfuzz_build_rustflags env bt m) "-C overflow_checks" := by
  rw [hfuzz_build_rustflags_decomp]
  refine ⟨containsStr_append_right _ _ _ ?_, containsStr_append_right _ _ _ ?_,
    containsStr_append_right _ _ _ ?_⟩ <;>
    cases bt <;> cases m <;> decide

/-- C1: With no user-supplied `RUSTFLAGS` (the default environment), the
assembled compiler-flags string contains the coverage-guard instrumentation
flags (the sancov pass and the three sanitizer-coverage llvm-args) if and
only if the mode is `ReleaseInstrumented`; and in that mode the
comparison-tracing flag `-C llvm-args=-sanitizer-coverage-trace-compares`
is present exactly when the target platform is not macOS. -/
theorem rustflags_instrumentation_iff_release_instrumented
    (env : Env) (bt : BuildType) (m : Bool)
    (hu : (env "RUSTFLAGS").getD "" = "") :
    ((containsStr (hfuzz_build_rustflags env bt m) "-C passes=sancov" ∧
      containsStr (hfuzz_build_rustflags env bt m) "-C llvm-args=-sanitizer-coverage-level=4" ∧
      containsStr (hfuzz_build_rustflags env bt m) "-C llvm-args=-sanitizer-coverage-trace-pc-guard" ∧
      containsStr (hfuzz_build_rustflags env bt m) "-C llvm-args=-sanitizer-coverage-prune-blocks=0")
      ↔ bt = .ReleaseInstrumented) ∧
    (bt = .ReleaseInstrumented →
      (containsStr (hfuzz_build_rustflags env bt m) "-C llvm-args=-sanitizer-coverage-trace-compares"
        ↔ m = false)) := by
  rw [hfuzz_build_rustflags_decomp, hu, String.append_empty]
  cases bt <;> cases m <;> decide

theorem rustflags_instrumentation_iff_release_instrumented_witness :
    (emptyEnv "RUSTFLAGS").getD "" = "" ∧
    (((containsStr (hfuzz_build_rustflags emptyEnv .Debug true) "-C passes=sancov" ∧
       containsStr (hfuzz_build_rustflags emptyEnv .Debug true) "-C llvm-args=-sanitizer-coverage-level=4" ∧
       containsStr (hfuzz_build_rustflags emptyEnv .Debug true) "-C llvm-args=-sanitizer-coverage-trace-pc-guard" ∧
       containsStr (hfuzz_build_rustflags emptyEnv .Debug true) "-C llvm-args=-sanitizer-coverage-prune-blocks=0")
       ↔ BuildType.Debug = .ReleaseInstrumented) ∧
     (BuildType.Debug = .ReleaseInstrumented →
       (containsStr (hfuzz_build_rustflags emptyEnv .Debug true) "-C llvm-args=-sanitizer-coverage-trace-compares"
         ↔ true = false))) :=
  ⟨rfl, rustflags_instrumentation_iff_release_instrumented emptyEnv .Debug true rfl⟩

/-- C3: With no user-supplied `RUSTFLAGS`: in Debug mode the assembled flag
string contains `-C panic=unwind`, `-C opt-level=0` and `-C debuginfo=2`;
in both release modes it contains `-C panic=abort`, `-C opt-level=3` and
`-C debuginfo=0` and never contains `-C panic=unwind` or `-C opt-level=0`. -/
theorem rustflags_mode_specific_flags (env : Env) (bt : BuildType) (m : Bool)
    (hu : (env "RUSTFLAGS").getD "" = "") :
    (bt = .Debug →
      containsStr (hfuzz_build_rustflags env bt m) "-C panic=unwind" ∧
      containsStr (hfuzz_build_rustflags env bt m) "-C opt-level=0" ∧
      containsStr (hfuzz_build_rustflags env bt m) "-C debuginfo=2") ∧
    (bt ≠ .Debug →
      containsStr (hfuzz_build_rustflags env bt m) "-C panic=abort" ∧
      containsStr (hfuzz_build_rustflags env bt m) "-C opt-level=3" ∧
      containsStr (hfuzz_build_rustflags env bt m) "-C debuginfo=0" ∧
      ¬ containsStr (hfuzz_build_rustflags env bt m) "-C panic=unwind" ∧
      ¬ containsStr (hfuzz_build_rustflags env bt m) "-C opt-level=0") := by
  rw [hfuzz_build_rustflags_decomp, hu, String.append_empty]
  cases bt <;> cases m <;> decide

theorem rustflags_mode_specific_flags_witness :
    (emptyEnv "RUSTFLAGS").getD "" = "" ∧
    ((BuildType.ReleaseInstrumented = .Debug →
       containsStr (hfuzz_build_rustflags emptyEnv .ReleaseInstrumented false) "-C panic=unwind" ∧
       containsStr (hfuzz_build_rustflags emptyEnv .ReleaseInstrumented false) "-C opt-level=0" ∧
       containsStr (hfuzz_build_rustflags emptyEnv .ReleaseInstrumented false) "-C debuginfo=2") ∧
     (BuildType.ReleaseInstrumented ≠ .Debug →
       containsStr (hfuzz_build_rustflags emptyEnv .ReleaseInstrumented false) "-C panic=abort" ∧
       containsStr (hfuzz_build_rustflags emptyEnv .ReleaseInstrumented false) "-C opt-level=3" ∧
       containsStr (hfuzz_build_rustflags emptyEnv .ReleaseInstrumented false) "-C debuginfo=0" ∧
       ¬ containsStr (hfuzz_build_rustflags emptyEnv .ReleaseInstrumented false) "-C panic=unwind" ∧
       ¬ containsStr (hfuzz_build_rustflags emptyEnv .ReleaseInstrumented false) "-C opt-level=0")) :=
  ⟨rfl, rustflags_mode_specific_flags emptyEnv .ReleaseInstrumented false rfl⟩

/-- C6: For every BuildMode and every value of the user `RUSTFLAGS`
variable, the assembled flag string is exactly the computed flags (the
assembly under the empty environment) followed by the user value: the
user-supplied flags are a suffix, positioned strictly after all computed
flags, so the toolchain's last-wins semantics let them override computed
settings. -/
theorem rustflags_user_flags_suffix (env : Env) (bt : BuildType) (m : Bool) :
    hfuzz_build_rustflags env bt m =
      hfuzz_build_rustflags emptyEnv bt m ++ ((env "RUSTFLAGS").getD "") ∧
    ((env "RUSTFLAGS").getD "").data <:+ (hfuzz_build_rustflags env bt m).data := by
  refine ⟨hfuzz_build_rustflags_decomp env bt m, ?_⟩
  rw [hfuzz_build_rustflags_decomp env bt m, String.data_append]
  exact ⟨(hfuzz_build_rustflags emptyEnv bt m).data, rfl⟩

/-- C7: Flag assembly is deterministic: it reads the environment only
through the `RUSTFLAGS` variable, so two invocations with the same
BuildMode, the same platform and the same `RUSTFLAGS` value produce
byte-identical flag strings. -/
theorem rustflags_deterministic (env1 env2 : Env) (bt : BuildType) (m : Bool)
    (h : env1 "RUSTFLAGS" = env2 "RUSTFLAGS") :
    hfuzz_build_rustflags env1 bt m = hfuzz_build_rustflags env2 bt m := by
  simp only [hfuzz_build_rustflags, h]

theorem rustflags_deterministic_witness :
    (emptyEnv "RUSTFLAGS" = (fun k => if k = "CARGO" then some "cargo" else none : Env) "RUSTFLAGS") ∧
    hfuzz_build_rustflags emptyEnv .ReleaseInstrumented false =
      hfuzz_build_rustflags (fun k => if k = "CARGO" then some "cargo" else none) .ReleaseInstrumented false :=
  ⟨by decide,
   rustflags_deterministic emptyEnv (fun k => if k = "CARGO" then some "cargo" else none)
     .ReleaseInstrumented false (by decide)⟩

theorem cd_to_crate_root_none_of_no_manifest (hm : List String → Bool) :
    ∀ p : List String, (∀ q ∈ ancestors p, hm q = false) → cd_to_crate_root hm p = none := by
  have main : ∀ (n : Nat) (p : List String), p.length = n →
      (∀ q ∈ ancestors p, hm q = false) → cd_to_crate_root hm p = none := by
    intro n
    induction n using Nat.strong_induction_on with
    | _ n ih =>
      intro p hp h
      match p with
      | [] =>
        have h0 : hm [] = false := h [] (by rw [ancestors]; exact List.mem_singleton.mpr rfl)
        rw [cd_to_crate_root, h0]
        simp
      | x :: xs =>
        have h0 : hm (x :: xs) = false :=
          h (x :: xs) (by rw [ancestors]; exact List.mem_cons_self _ _)
        rw [cd_to_crate_root, h0]
        simp only [Bool.false_eq_true, if_false]
        refine ih (x :: xs).dropLast.length ?_ _ rfl ?_
        · rw [← hp]; simp [List.length_dropLast]
        · intro q hq
          exact h q (by rw [ancestors]; exact List.mem_cons_of_mem _ hq)
  intro p h
  exact main p.length p rfl h

/-- C5: The project-root locator, started at `/a/b/c` with a manifest at
`/a` and nowhere below, stops at `/a` (which the source then makes the
working directory); and for every starting directory whose ancestor chain
up to the filesystem root contains no manifest, it fails (the source prints
an error and exits 1). -/
theorem cd_to_crate_root_correct :
    (∀ hm : List String → Bool,
       hm ["a", "b", "c"] = false → hm ["a", "b"] = false → hm ["a"] = true →
       cd_to_crate_root hm ["a", "b", "c"] = some ["a"]) ∧
    (∀ (hm : List String → Bool) (p : List String),
       (∀ q ∈ ancestors p, hm q = false) → cd_to_crate_root hm p = none) := by
  constructor
  · intro hm h3 h2 h1
    rw [cd_to_crate_root, h3]
    simp only [Bool.false_eq_true, if_false]
    have e3 : (["a", "b", "c"] : List String).dropLast = ["a", "b"] := rfl
    rw [e3, cd_to_crate_root, h2]
    simp only [Bool.false_eq_true, if_false]
    have e2 : (["a", "b"] : List String).dropLast = ["a"] := rfl
    rw [e2, cd_to_crate_root, h1]
    simp
  · exact fun hm p h => cd_to_crate_root_none_of_no_manifest hm p h

theorem cd_to_crate_root_correct_witness :
    ((fun p => p == ["a"]) : List String → Bool) ["a", "b", "c"] = false ∧
    cd_to_crate_root (fun p => p == ["a"]) ["a", "b", "c"] = some ["a"] ∧
    cd_to_crate_root (fun _ => false) ["x", "y"] = none :=
  ⟨by decide,
   cd_to_crate_root_correct.1 (fun p => p == ["a"]) (by decide) (by decide) (by decide),
   cd_to_crate_root_correct.2 (fun _ => false) ["x", "y"] (fun _ _ => rfl)⟩

/-- C10: For every invocation whose first CLI token is `hfuzz`, the
crate-root locator runs before the verb is dispatched: whatever the rest of
the command line (any verb, including `version` and `clean`, with any
arguments), when no build manifest exists in the current directory or any
ancestor the invocation exits with code 1 having launched nothing and
printed no version string (empty action trace). -/
theorem main_requires_crate_root (env : Env) (w : World) (hm : List String → Bool)
    (cwd : List String) (rest : List String)
    (h : ∀ q ∈ ancestors cwd, hm q = false) :
    mainModel env w hm cwd ("hfuzz" :: rest) = ([], .exited 1) := by
  have hnone := cd_to_crate_root_none_of_no_manifest hm cwd h
  simp [mainModel, hnone]

theorem main_requires_crate_root_witness :
    mainModel emptyEnv ⟨none, false, none, none, false⟩ (fun _ => false) ["home", "user"]
      ["hfuzz", "version"] = ([], .exited 1) :=
  main_requires_crate_root emptyEnv ⟨none, false, none, none, false⟩ (fun _ => false)
    ["home", "user"] ["version"] (fun _ _ => rfl)

theorem hfuzz_build_trace_shape (env : Env) (w : World) (a : List String) (bt : BuildType) :
    ∀ act ∈ (hfuzz_build env w a bt).1, ∃ c, act = Act.runBuildTool c := by
  rcases hC : env "CARGO" with _ | cb
  · simp [hfuzz_build, hC]
  · rcases hT : target_triple w.rustcStdout with t | _
    · rcases hS : w.cargoStatus with _ | st
      · simp [hfuzz_build, hC, hT, hS]
      · by_cases h0 : st = some 0 <;> simp [hfuzz_build, hC, hT, hS, h0]
    · simp [hfuzz_build, hC, hT]

theorem hfuzz_build_returned_status (env : Env) (w : World) (a : List String) (bt : BuildType)
    (h : (hfuzz_build env w a bt).2 = .returned) : w.cargoStatus = some (some 0) := by
  rcases hC : env "CARGO" with _ | cb
  · simp [hfuzz_build, hC] at h
  · rcases hT : target_triple w.rustcStdout with t | _
    · rcases hS : w.cargoStatus with _ | st
      · simp [hfuzz_build, hC, hT, hS] at h
      · by_cases h0 : st = some 0
        · rw [h0]
        · simp [hfuzz_build, hC, hT, hS, h0] at h
    · simp [hfuzz_build, hC, hT] at h

theorem hfuzz_build_failure (env : Env) (w : World) (a : List String) (bt : BuildType)
    (cb : String) (c : Nat) (hcb : env "CARGO" = some cb)
    (ht : ∃ t, target_triple w.rustcStdout = .ok t)
    (hst : w.cargoStatus = some (some c)) (hc : c ≠ 0) :
    ∃ cmd, hfuzz_build env w a bt = ([Act.runBuildTool cmd], .exited c) := by
  obtain ⟨t, ht⟩ := ht
  have hne : ¬ ((some c : Option Nat) = some 0) := by simpa using hc
  simp only [hfuzz_build, hcb, ht, hst]
  simp [hne]

/-- C4: For every BuildMode, when the build tool exits with a non-zero code
`c`, the run flow terminates with that identical exit code having launched
only the build tool (so the fuzzing engine and the debugger are never
invoked); and whenever the build tool did not exit successfully, the action
trace of the run flow contains no fuzzing-engine exec and no debugger
launch — the run/debug step executes only after a successful build. -/
theorem hfuzz_run_build_failure_propagation :
    (∀ (env : Env) (w : World) (target : String) (rest : List String) (bt : BuildType)
       (cb : String) (c : Nat),
       env "CARGO" = some cb →
       (∃ t, target_triple w.rustcStdout = .ok t) →
       w.cargoStatus = some (some c) → c ≠ 0 →
       ∃ cmd, hfuzz_run env w (target :: rest) bt = ([Act.runBuildTool cmd], .exited c)) ∧
    (∀ (env : Env) (w : World) (args : List String) (bt : BuildType),
       w.cargoStatus ≠ some (some 0) →
       ∀ cmd, Act.execFuzzer cmd ∉ (hfuzz_run env w args bt).1 ∧
              Act.runDebugger cmd ∉ (hfuzz_run env w args bt).1) := by
  constructor
  · intro env w target rest bt cb c hcb ht hst hc
    obtain ⟨cmd, hb⟩ := hfuzz_build_failure env w ["--bin", target] bt cb c hcb ht hst hc
    refine ⟨cmd, ?_⟩
    simp only [hfuzz_run]
    rw [hb]
  · intro env w args bt h cmd
    have key : ∀ act ∈ (hfuzz_run env w args bt).1, ∃ c, act = Act.runBuildTool c := by
      match args with
      | [] => simp [hfuzz_run]
      | target :: rest =>
        rcases hb : hfuzz_build env w ["--bin", target] bt with ⟨tr, o⟩
        have htr : ∀ act ∈ tr, ∃ c, act = Act.runBuildTool c := by
          have h1 := hfuzz_build_trace_shape env w ["--bin", target] bt
          rw [hb] at h1
          exact h1
        have h2 : o ≠ Outcome.returned := by
          intro ho
          exact h (hfuzz_build_returned_status env w ["--bin", target] bt (by rw [hb, ho]))
        simp only [hfuzz_run]
        rw [hb]
        cases o with
        | returned => exact absurd rfl h2
        | exited c => simpa using htr
        | panicked => simpa using htr
        | execed c => simpa using htr
    refine ⟨fun hmem => ?_, fun hmem => ?_⟩ <;>
      · obtain ⟨c, hc⟩ := key _ hmem
        simp at hc

theorem hfuzz_run_build_failure_propagation_witness :
    ((fun k => if k = "CARGO" then some "cargo" else none : Env) "CARGO" = some "cargo" ∧
     (∃ t, target_triple (some ["host: x"]) = .ok t) ∧
     (some (some 7) : Option (Option Nat)) = some (some 7) ∧ (7 : Nat) ≠ 0 ∧
     ∃ cmd,
       hfuzz_run (fun k => if k = "CARGO" then some "cargo" else none)
         ⟨some ["host: x"], false, some (some 7), none, false⟩ ["foo"] .ReleaseInstrumented =
         ([Act.runBuildTool cmd], .exited 7)) ∧
    ((some (some 7) : Option (Option Nat)) ≠ some (some 0) ∧
     ∀ cmd, Act.execFuzzer cmd ∉
         (hfuzz_run (fun k => if k = "CARGO" then some "cargo" else none)
           ⟨some ["host: x"], false, some (some 7), none, false⟩ ["foo"] .ReleaseInstrumented).1 ∧
       Act.runDebugger cmd ∉
         (hfuzz_run (fun k => if k = "CARGO" then some "cargo" else none)
           ⟨some ["host: x"], false, some (some 7), none, false⟩ ["foo"] .ReleaseInstrumented).1) :=
  ⟨⟨rfl, ⟨"x", rfl⟩, rfl, by decide,
    hfuzz_run_build_failure_propagation.1 _ ⟨some ["host: x"], false, some (some 7), none, false⟩
      "foo" [] .ReleaseInstrumented "cargo" 7 rfl ⟨"x", rfl⟩ rfl (by decide)⟩,
   ⟨by decide,
    hfuzz_run_build_failure_propagation.2 _ ⟨some ["host: x"], false, some (some 7), none, false⟩
      ["foo"] .ReleaseInstrumented (by decide)⟩⟩

theorem hfuzz_build_success (env : Env) (w : World) (a : List String) (bt : BuildType)
    (cb t : String) (hcb : env "CARGO" = some cb)
    (ht : target_triple w.rustcStdout = .ok t)
    (hst : w.cargoStatus = some (some 0)) :
    ∃ cmd, hfuzz_build env w a bt = ([Act.runBuildTool cmd], .returned) := by
  simp only [hfuzz_build, hcb, ht, hst]
  simp

theorem fileName_rust_lldb_selects_lldb :
    (fileName "rust-lldb").map (fun f => containsSub f "lldb") = some true := by decide

/-- C8: In the run-debug flow with `HFUZZ_DEBUGGER` unset and a successful
build, the debugger command uses the LLDB argument dialect (`-o` scripted
commands, `-f` artifact, `--` separator) with program `rust-lldb`; the
crash filename reaches the debugged child only through the
`CARGO_HONGGFUZZ_CRASH_FILENAME` environment variable — the argument list
is built from the target, triple and residual arguments alone and never
mentions the crash filename. -/
theorem run_debug_default_lldb_dialect (env : Env) (w : World)
    (target crash : String) (rest : List String) (cb t : String)
    (hcb : env "CARGO" = some cb)
    (ht : target_triple w.rustcStdout = .ok t)
    (hst : w.cargoStatus = some (some 0))
    (hdbg : env "HFUZZ_DEBUGGER" = none) :
    ∃ (bc : Cmd) (o : Outcome),
      hfuzz_run env w (target :: crash :: rest) .Debug =
        ([Act.runBuildTool bc,
          Act.runDebugger
            { program := "rust-lldb",
              args := ["-o", "b rust_panic", "-o", "r", "-o", "bt", "-f",
                ((env "CARGO_TARGET_DIR").getD "hfuzz_target") ++ "/" ++ t ++ "/debug/" ++ target,
                "--"] ++ rest,
              envs := [("CARGO_HONGGFUZZ_CRASH_FILENAME", crash),
                       ("RUST_BACKTRACE", (env "RUST_BACKTRACE").getD "1")] }], o) := by
  obtain ⟨bc, hb⟩ := hfuzz_build_success env w ["--bin", target] .Debug cb t hcb ht hst
  refine ⟨bc, ?_⟩
  simp only [hfuzz_run]
  rw [hb, ht]
  simp only [debugger_command, hdbg, Option.getD_none, fileName_rust_lldb_selects_lldb]
  rcases hd : w.debuggerStatus with _ | st
  · exact ⟨.panicked, by simp⟩
  · by_cases h0 : st = some 0
    · exact ⟨.returned, by simp [h0]⟩
    · exact ⟨.exited (st.getD 1), by simp [h0]⟩

theorem run_debug_default_lldb_dialect_witness :
    ((fun k => if k = "CARGO" then some "cargo" else none : Env) "HFUZZ_DEBUGGER" = none) ∧
    ∃ (bc : Cmd) (o : Outcome),
      hfuzz_run (fun k => if k = "CARGO" then some "cargo" else none)
          ⟨some ["host: x"], false, some (some 0), some (some 0), false⟩
          ["foo", "crash.bin"] .Debug =
        ([Act.runBuildTool bc,
          Act.runDebugger
            { program := "rust-lldb",
              args := ["-o", "b rust_panic", "-o", "r", "-o", "bt", "-f",
                (((fun k => if k = "CARGO" then some "cargo" else none : Env)
                    "CARGO_TARGET_DIR").getD "hfuzz_target") ++ "/" ++ "x" ++ "/debug/" ++ "foo",
                "--"] ++ [],
              envs := [("CARGO_HONGGFUZZ_CRASH_FILENAME", "crash.bin"),
                       ("RUST_BACKTRACE",
                        (((fun k => if k = "CARGO" then some "cargo" else none : Env)
                           "RUST_BACKTRACE").getD "1"))] }], o) :=
  ⟨rfl,
   run_debug_default_lldb_dialect (fun k => if k = "CARGO" then some "cargo" else none)
     ⟨some ["host: x"], false, some (some 0), some (some 0), false⟩
     "foo" "crash.bin" [] "cargo" "x" rfl rfl rfl rfl⟩

/-- C9 (amended): when the host target triple cannot be obtained or parsed
from the compiler's output (the `rustc -v -V` invocation fails, or no
stdout line begins with `host: `), the orchestrator terminates fatally —
but via a Rust panic (`unwrap` on the failure), which aborts the process
with the panic exit code 101, not with exit code 1: nothing is launched and
the outcome is `panicked`, whose observable exit code is `panicExitCode`. -/
theorem target_triple_failure_panics (env : Env) (w : World) (args : List String)
    (bt : BuildType) (cb : String)
    (hcb : env "CARGO" = some cb)
    (hbad : target_triple w.rustcStdout = .panicked) :
    hfuzz_build env w args bt = ([], .panicked) ∧
    (hfuzz_build env w args bt).2.exitCode = some panicExitCode := by
  have h : hfuzz_build env w args bt = ([], .panicked) := by
    simp only [hfuzz_build, hcb, hbad]
  exact ⟨h, by rw [h]; rfl⟩

theorem target_triple_failure_panics_witness :
    ((fun k => if k = "CARGO" then some "cargo" else none : Env) "CARGO" = some "cargo") ∧
    target_triple ((⟨none, false, some (some 0), none, false⟩ : World).rustcStdout) = .panicked ∧
    (hfuzz_build (fun k => if k = "CARGO" then some "cargo" else none)
        ⟨none, false, some (some 0), none, false⟩ ["--bin", "foo"] .Debug = ([], .panicked) ∧
     (hfuzz_build (fun k => if k = "CARGO" then some "cargo" else none)
        ⟨none, false, some (some 0), none, false⟩ ["--bin", "foo"] .Debug).2.exitCode =
       some panicExitCode) :=
  ⟨rfl, rfl,
   target_triple_failure_panics (fun k => if k = "CARGO" then some "cargo" else none)
     ⟨none, false, some (some 0), none, false⟩ ["--bin", "foo"] .Debug "cargo" rfl rfl⟩

/-- C9 counterexample: with `rustc -v -V` failing (so the triple cannot be
obtained), the build flow's outcome has observable exit code 101 (the Rust
panic exit code), not 1 as the claim states. -/
theorem target_triple_failure_exit_code_counterexample :
    (hfuzz_build (fun k => if k = "CARGO" then some "cargo" else none)
        ⟨none, false, some (some 0), none, false⟩ [] .ReleaseInstrumented).2.exitCode =
      some 101 ∧
    ¬ (hfuzz_build (fun k => if k = "CARGO" then some "cargo" else none)
        ⟨none, false, some (some 0), none, false⟩ [] .ReleaseInstrumented).2.exitCode =
      some 1 := by
  constructor
  · rfl
  · decide
